import Mathlib

/-!
Verification of the authorization core of `airflow/auth/managers/base_auth_manager.py`:
the `BaseAuthManager` class.  Abstract members of the class (`get_user`, the
per-resource-kind `is_authorized_*` predicates, `serialize_user`, `deserialize_user`)
become fields of a structure; the concrete default implementations
(`batch_is_authorized_*`, `filter_permitted_dag_ids`, `get_permitted_dag_ids`,
`get_user_name`, `get_user_display_name`, `get_user_id`, `get_jwt_token`) become
Lean functions over that structure, translated line by line from the source.
-/

namespace Airflow

/-- The `ResourceMethod` literal type of the source:
`ResourceMethod = Literal["GET", "POST", "PUT", "DELETE", "MENU"]`. -/
inductive ResourceMethod
  | GET
  | POST
  | PUT
  | DELETE
  | MENU
deriving DecidableEq

/-- Modelled from the spec: the minimal user abstraction (`BaseUser`, not under
`src/`): an opaque identifier and a display name, exposed through `get_name` and
`get_id`.  `get_id` is optional because the source guards it with a truthiness
check in `get_user_id`. -/
structure BaseUser where
  get_name : String
  get_id : Option String
deriving DecidableEq

/-- Modelled from the spec: `ConnectionDetails` (resource_details module not under
`src/`), the fine-grained qualifier narrowing a connection check to one instance. -/
structure ConnectionDetails where
  conn_id : String
deriving DecidableEq

/-- `DagDetails`: the qualifier used by `filter_permitted_dag_ids`, built in the
source as `DagDetails(id=dag_id)`. -/
structure DagDetails where
  id : String
deriving DecidableEq

/-- Modelled from the spec: the access-entity sub-kind qualifier for Dag
authorization (resource_details module not under `src/`). -/
structure DagAccessEntity where
  value : String
deriving DecidableEq

/-- Modelled from the spec: `PoolDetails` (resource_details module not under `src/`). -/
structure PoolDetails where
  name : String
deriving DecidableEq

/-- Modelled from the spec: `VariableDetails` (resource_details module not under `src/`). -/
structure VariableDetails where
  key : String
deriving DecidableEq

/-- The abstract surface of `BaseAuthManager` that the default implementations
verified here depend on.  Each `is_authorized_*` predicate takes the method, the
optional details (and for Dag the optional access entity) and the optional user;
passing `none` for the user means "the current user" and is resolved inside the
backend, so the predicates are plain boolean functions of all their arguments.
Abstract members not used by any default implementation under verification
(configuration, asset, view, custom view, menu filtering, URLs) are omitted. -/
structure AuthManager where
  get_user : Option BaseUser
  is_authorized_connection : ResourceMethod → Option ConnectionDetails → Option BaseUser → Bool
  is_authorized_dag :
    ResourceMethod → Option DagAccessEntity → Option DagDetails → Option BaseUser → Bool
  is_authorized_pool : ResourceMethod → Option PoolDetails → Option BaseUser → Bool
  is_authorized_variable : ResourceMethod → Option VariableDetails → Option BaseUser → Bool
  serialize_user : BaseUser → List (String × String)
  deserialize_user : List (String × String) → BaseUser

/-- Modelled from the spec: the element type of connection batch requests
(`IsAuthorizedConnectionRequest` from the batch_apis module, not under `src/`):
a method, optional resource details, and an optional identity override. -/
structure IsAuthorizedConnectionRequest where
  method : ResourceMethod
  details : Option ConnectionDetails
  user : Option BaseUser
deriving DecidableEq

/-- Modelled from the spec: the element type of Dag batch requests
(`IsAuthorizedDagRequest` from the batch_apis module, not under `src/`). -/
structure IsAuthorizedDagRequest where
  method : ResourceMethod
  access_entity : Option DagAccessEntity
  details : Option DagDetails
  user : Option BaseUser
deriving DecidableEq

/-- Modelled from the spec: the element type of pool batch requests
(`IsAuthorizedPoolRequest` from the batch_apis module, not under `src/`). -/
structure IsAuthorizedPoolRequest where
  method : ResourceMethod
  details : Option PoolDetails
  user : Option BaseUser
deriving DecidableEq

/-- Modelled from the spec: the element type of variable batch requests
(`IsAuthorizedVariableRequest` from the batch_apis module, not under `src/`). -/
structure IsAuthorizedVariableRequest where
  method : ResourceMethod
  details : Option VariableDetails
  user : Option BaseUser
deriving DecidableEq

/-- The error taxonomy of the spec.  The source raises `AirflowException` where the
spec names `Unauthenticated`; `Dependency` covers failures of external collaborators. -/
inductive AuthError
  | unauthenticated (msg : String)
  | dependency (msg : String)
deriving DecidableEq

/-- Log levels of the logging sink; the source logs with `self.log.error`. -/
inductive LogLevel
  | error
  | warning
  | info
deriving DecidableEq

/-- `get_user_name`: returns the username of the user in session, or raises
`AirflowException("The user must be signed in.")` after logging at error level
when `get_user()` returns no user.  The second component collects the log output. -/
def get_user_name (m : AuthManager) :
    Except AuthError String × List (LogLevel × String) :=
  match m.get_user with
  | none =>
      (Except.error (AuthError.unauthenticated "The user must be signed in."),
       [(LogLevel.error, "Calling get_user_name() but the user is not signed in.")])
  | some user => (Except.ok user.get_name, [])

/-- `get_user_display_name`: the source simply returns `self.get_user_name()`. -/
def get_user_display_name (m : AuthManager) :
    Except AuthError String × List (LogLevel × String) :=
  get_user_name m

/-- The walrus-guarded tail of `get_user_id`:
`if user_id := user.get_id(): return str(user_id)` / `return None`.
A missing or empty (falsy) id yields `None`. -/
def coerce_user_id (user_id : Option String) : Option String :=
  match user_id with
  | some s => if s = "" then none else some s
  | none => none

/-- `get_user_id`: returns the id of the user in session, or raises
`AirflowException("The user must be signed in.")` after logging at error level
when `get_user()` returns no user. -/
def get_user_id (m : AuthManager) :
    Except AuthError (Option String) × List (LogLevel × String) :=
  match m.get_user with
  | none =>
      (Except.error (AuthError.unauthenticated "The user must be signed in."),
       [(LogLevel.error, "Calling get_user_id() but the user is not signed in.")])
  | some user => (Except.ok (coerce_user_id user.get_id), [])

/-- `batch_is_authorized_connection`: `all(self.is_authorized_connection(method=...,
details=request.get("details")) for request in requests)`.  Note the source passes
no `user` argument, so every element is checked as the current user. -/
def batch_is_authorized_connection (m : AuthManager)
    (requests : List IsAuthorizedConnectionRequest) : Bool :=
  requests.all fun request => m.is_authorized_connection request.method request.details none

/-- `batch_is_authorized_dag`: `all(self.is_authorized_dag(method=..., access_entity=...,
details=...) for request in requests)`; again no `user` argument is passed. -/
def batch_is_authorized_dag (m : AuthManager)
    (requests : List IsAuthorizedDagRequest) : Bool :=
  requests.all fun request =>
    m.is_authorized_dag request.method request.access_entity request.details none

/-- `batch_is_authorized_pool`, with the same shape as the connection version. -/
def batch_is_authorized_pool (m : AuthManager)
    (requests : List IsAuthorizedPoolRequest) : Bool :=
  requests.all fun request => m.is_authorized_pool request.method request.details none

/-- `batch_is_authorized_variable`, with the same shape as the connection version. -/
def batch_is_authorized_variable (m : AuthManager)
    (requests : List IsAuthorizedVariableRequest) : Bool :=
  requests.all fun request => m.is_authorized_variable request.method request.details none

/-- The defaulting step of `filter_permitted_dag_ids`:
`if not methods: methods = ["PUT", "GET"]` — Python truthiness makes both a missing
container and an empty one fall back to `["PUT", "GET"]`. -/
def effective_methods (methods : Option (List ResourceMethod)) : List ResourceMethod :=
  match methods with
  | none => [ResourceMethod.PUT, ResourceMethod.GET]
  | some l => if l.isEmpty then [ResourceMethod.PUT, ResourceMethod.GET] else l

/-- The inner helper `_is_permitted_dag_id(method, methods, dag_id)`:
`method in methods and self.is_authorized_dag(method=method, details=DagDetails(id=dag_id),
user=user)`. -/
def _is_permitted_dag_id (m : AuthManager) (method : ResourceMethod)
    (methods : List ResourceMethod) (dag_id : String) (user : Option BaseUser) : Bool :=
  decide (method ∈ methods) && m.is_authorized_dag method none (some ⟨dag_id⟩) user

/-- `filter_permitted_dag_ids`: after defaulting `methods`, return the whole input
set when the unscoped GET or PUT check (whichever is in `methods`) passes; otherwise
keep exactly the ids permitted per id for GET or for PUT. -/
def filter_permitted_dag_ids (m : AuthManager) (dag_ids : Finset String)
    (methods : Option (List ResourceMethod)) (user : Option BaseUser) : Finset String :=
  if (ResourceMethod.GET ∈ effective_methods methods
        ∧ m.is_authorized_dag ResourceMethod.GET none none user = true)
      ∨ (ResourceMethod.PUT ∈ effective_methods methods
        ∧ m.is_authorized_dag ResourceMethod.PUT none none user = true) then
    dag_ids
  else
    dag_ids.filter fun dag_id =>
      _is_permitted_dag_id m ResourceMethod.GET (effective_methods methods) dag_id user = true
      ∨ _is_permitted_dag_id m ResourceMethod.PUT (effective_methods methods) dag_id user = true

/-- `get_permitted_dag_ids`: enumerates all dag ids from the external store
(`session.execute(select(DagModel.dag_id))`) and delegates to
`filter_permitted_dag_ids`.  The enumeration is an external collaborator; its
outcome is passed in as an `Except` value so that a raising enumeration
propagates unchanged (Python exception semantics) and no filtering happens. -/
def get_permitted_dag_ids (m : AuthManager) (store : Except AuthError (List String))
    (methods : Option (List ResourceMethod)) (user : Option BaseUser) :
    Except AuthError (Finset String) :=
  match store with
  | Except.error e => Except.error e
  | Except.ok dag_list =>
      Except.ok (filter_permitted_dag_ids m dag_list.toFinset methods user)

/-- Configuration values read by `get_jwt_token`: `conf.get("api", "auth_jwt_secret")`
and `conf.getint("api", "auth_jwt_expiration_time")`. -/
structure Config where
  auth_jwt_secret : String
  auth_jwt_expiration_time : Nat

/-- Modelled from the spec: the signed token envelope produced by `JWTSigner`
(airflow/utils/jwt_signer.py, not under `src/`): serialized claims, an expiration
timestamp, an audience tag, and a signature over secret, audience, expiry and claims. -/
structure SignedToken where
  claims : List (String × String)
  exp : Nat
  aud : String
  sig : String
deriving DecidableEq

/-- Modelled from the spec: the signature computed over the secret, the audience,
the expiration and the claims (standard signed-claims scheme). -/
def sign_payload (secret : String) (audience : String) (e : Nat)
    (claims : List (String × String)) : String :=
  secret ++ ":" ++ audience ++ ":" ++ toString e ++ ":"
    ++ String.intercalate "," (claims.map fun p => p.1 ++ "=" ++ p.2)

/-- Modelled from the spec: `JWTSigner.generate_signed_token` — wraps the claims in
a signed envelope expiring `expiration_time_in_seconds` after issuance. -/
def generate_signed_token (secret : String) (expiration_time_in_seconds : Nat)
    (audience : String) (now : Nat) (claims : List (String × String)) : SignedToken :=
  ⟨claims, now + expiration_time_in_seconds, audience,
   sign_payload secret audience (now + expiration_time_in_seconds) claims⟩

/-- Modelled from the spec: token verification — rejects a token whose signature,
audience, or expiration does not match exactly, and returns the claims otherwise. -/
def verify_signed_token (secret : String) (audience : String) (now : Nat)
    (t : SignedToken) : Option (List (String × String)) :=
  if t.sig = sign_payload secret audience t.exp t.claims ∧ t.aud = audience ∧ now < t.exp then
    some t.claims
  else
    none

/-- `get_jwt_token`: signs `serialize_user(user)` with the configured secret and
expiration and the fixed audience `"front-apis"`. -/
def get_jwt_token (m : AuthManager) (cfg : Config) (now : Nat) (user : BaseUser) :
    SignedToken :=
  generate_signed_token cfg.auth_jwt_secret cfg.auth_jwt_expiration_time "front-apis" now
    (m.serialize_user user)

/-- A concrete user for the concrete-instance theorems below. -/
def userAlice : BaseUser := ⟨"alice", some "7"⟩

/-- A backend granting blanket (unscoped and scoped) Dag access for GET only. -/
def mgrBlanketGet : AuthManager :=
  ⟨none, fun _ _ _ => false,
   fun method _ _ _ => decide (method = ResourceMethod.GET),
   fun _ _ _ => false, fun _ _ _ => false, fun _ => [], fun _ => userAlice⟩

/-- A backend granting Dag access only for the specific dag id `"a"`; every
unscoped check is denied.  Its session has no signed-in user. -/
def mgrOnlyA : AuthManager :=
  ⟨none, fun _ _ _ => false,
   fun _ _ details _ => decide (details = some ⟨"a"⟩),
   fun _ _ _ => false, fun _ _ _ => false, fun _ => [], fun _ => userAlice⟩

/-- A backend granting every authorization request. -/
def mgrAllowAll : AuthManager :=
  ⟨none, fun _ _ _ => true, fun _ _ _ _ => true, fun _ _ _ => true, fun _ _ _ => true,
   fun _ => [], fun _ => userAlice⟩

/-- A backend whose decisions depend only on the `user` argument: every check
passes exactly when the explicit user argument is `userAlice`. -/
def mgrUserSensitive : AuthManager :=
  ⟨none, fun _ _ u => decide (u = some userAlice), fun _ _ _ u => decide (u = some userAlice),
   fun _ _ u => decide (u = some userAlice), fun _ _ u => decide (u = some userAlice),
   fun _ => [], fun _ => userAlice⟩

/-- A backend whose session has `userAlice` signed in. -/
def mgrAlice : AuthManager :=
  ⟨some userAlice, fun _ _ _ => false, fun _ _ _ _ => false, fun _ _ _ => false,
   fun _ _ _ => false, fun _ => [], fun _ => userAlice⟩

/-- A backend with a concrete serializer pair: every user serializes to one claim
and deserializes back to `userAlice`. -/
def mgrJwt : AuthManager :=
  ⟨none, fun _ _ _ => false, fun _ _ _ _ => false, fun _ _ _ => false, fun _ _ _ => false,
   fun _ => [("sub", "alice")], fun _ => userAlice⟩

/-- A connection batch-request element carrying an identity override. -/
def overrideConnRequest : IsAuthorizedConnectionRequest :=
  ⟨ResourceMethod.GET, none, some userAlice⟩

/-- Claim C1: each default `batch_is_authorized_<kind>` returns true iff every
element of the request sequence individually satisfies the corresponding
single-item predicate (with that element's method and optional details, and for
Dag its access entity); the empty sequence yields true. -/
theorem batch_is_authorized_conj (m : AuthManager)
    (creqs : List IsAuthorizedConnectionRequest) (dreqs : List IsAuthorizedDagRequest)
    (preqs : List IsAuthorizedPoolRequest) (vreqs : List IsAuthorizedVariableRequest) :
    (batch_is_authorized_connection m creqs = true ↔
      ∀ r ∈ creqs, m.is_authorized_connection r.method r.details none = true)
    ∧ batch_is_authorized_connection m [] = true
    ∧ (batch_is_authorized_dag m dreqs = true ↔
      ∀ r ∈ dreqs, m.is_authorized_dag r.method r.access_entity r.details none = true)
    ∧ batch_is_authorized_dag m [] = true
    ∧ (batch_is_authorized_pool m preqs = true ↔
      ∀ r ∈ preqs, m.is_authorized_pool r.method r.details none = true)
    ∧ batch_is_authorized_pool m [] = true
    ∧ (batch_is_authorized_variable m vreqs = true ↔
      ∀ r ∈ vreqs, m.is_authorized_variable r.method r.details none = true)
    ∧ batch_is_authorized_variable m [] = true := by
  refine ⟨?_, rfl, ?_, rfl, ?_, rfl, ?_, rfl⟩ <;>
    simp [batch_is_authorized_connection, batch_is_authorized_dag,
      batch_is_authorized_pool, batch_is_authorized_variable, List.all_eq_true]

/-- Claim C2: when the unscoped Dag check passes for GET (with GET among the
effective methods) or for PUT (with PUT among them), `filter_permitted_dag_ids`
returns the entire input set. -/
theorem filter_permitted_dag_ids_fast_path (m : AuthManager) (dag_ids : Finset String)
    (methods : Option (List ResourceMethod)) (user : Option BaseUser)
    (h : (ResourceMethod.GET ∈ effective_methods methods
          ∧ m.is_authorized_dag ResourceMethod.GET none none user = true)
        ∨ (ResourceMethod.PUT ∈ effective_methods methods
          ∧ m.is_authorized_dag ResourceMethod.PUT none none user = true)) :
    filter_permitted_dag_ids m dag_ids methods user = dag_ids := by
  unfold filter_permitted_dag_ids
  rw [if_pos h]

/-- Claim C2 witness: a blanket-GET identity gets the whole input set back. -/
theorem filter_permitted_dag_ids_fast_path_witness :
    filter_permitted_dag_ids mgrBlanketGet {"a", "b"} (some [ResourceMethod.GET]) none
      = {"a", "b"} :=
  filter_permitted_dag_ids_fast_path mgrBlanketGet {"a", "b"} (some [ResourceMethod.GET]) none
    (Or.inl ⟨by decide, by decide⟩)

/-- Claim C3: when neither unscoped fast-path check succeeds,
`filter_permitted_dag_ids` returns exactly the ids of the input set permitted
per id for GET (when GET is among the effective methods) or for PUT (when PUT
is), with set semantics. -/
theorem filter_permitted_dag_ids_slow_path (m : AuthManager) (dag_ids : Finset String)
    (methods : Option (List ResourceMethod)) (user : Option BaseUser)
    (h : ¬ ((ResourceMethod.GET ∈ effective_methods methods
          ∧ m.is_authorized_dag ResourceMethod.GET none none user = true)
        ∨ (ResourceMethod.PUT ∈ effective_methods methods
          ∧ m.is_authorized_dag ResourceMethod.PUT none none user = true))) :
    filter_permitted_dag_ids m dag_ids methods user
      = dag_ids.filter fun dag_id =>
          (ResourceMethod.GET ∈ effective_methods methods
            ∧ m.is_authorized_dag ResourceMethod.GET none (some ⟨dag_id⟩) user = true)
          ∨ (ResourceMethod.PUT ∈ effective_methods methods
            ∧ m.is_authorized_dag ResourceMethod.PUT none (some ⟨dag_id⟩) user = true) := by
  unfold filter_permitted_dag_ids
  rw [if_neg h]
  apply Finset.filter_congr
  intro d _
  simp [_is_permitted_dag_id]

/-- Claim C3 witness: an identity authorized only for id "a" among
S = \x7b"a","b","c"\x7d gets exactly \x7b"a"\x7d with methods [GET, PUT]. -/
theorem filter_permitted_dag_ids_slow_path_witness :
    filter_permitted_dag_ids mgrOnlyA {"a", "b", "c"}
      (some [ResourceMethod.GET, ResourceMethod.PUT]) none = {"a"} :=
  (filter_permitted_dag_ids_slow_path mgrOnlyA {"a", "b", "c"}
      (some [ResourceMethod.GET, ResourceMethod.PUT]) none (by decide)).trans (by decide)

/-- Claim C4: calling `filter_permitted_dag_ids` with `methods` unset (`none`) or
with an empty methods container behaves identically to calling it with
methods = [GET, PUT]. -/
theorem filter_permitted_dag_ids_default_methods (m : AuthManager) (dag_ids : Finset String)
    (user : Option BaseUser) :
    filter_permitted_dag_ids m dag_ids none user
      = filter_permitted_dag_ids m dag_ids
          (some [ResourceMethod.GET, ResourceMethod.PUT]) user
    ∧ filter_permitted_dag_ids m dag_ids (some []) user
      = filter_permitted_dag_ids m dag_ids
          (some [ResourceMethod.GET, ResourceMethod.PUT]) user := by
  constructor <;>
  · by_cases hG : m.is_authorized_dag ResourceMethod.GET none none user = true <;>
      by_cases hP : m.is_authorized_dag ResourceMethod.PUT none none user = true <;>
      simp [filter_permitted_dag_ids, effective_methods, _is_permitted_dag_id, hG, hP]

/-- Claim C9: `filter_permitted_dag_ids` never introduces an id that was not in
the input set — its result is a subset of the input, on both paths. -/
theorem filter_permitted_dag_ids_subset (m : AuthManager) (dag_ids : Finset String)
    (methods : Option (List ResourceMethod)) (user : Option BaseUser) :
    filter_permitted_dag_ids m dag_ids methods user ⊆ dag_ids := by
  unfold filter_permitted_dag_ids
  split
  · exact Finset.Subset.refl _
  · exact Finset.filter_subset _ _

/-- Claim C10: a non-empty methods container containing neither GET nor PUT makes
`filter_permitted_dag_ids` return the empty set, whatever the user may access. -/
theorem filter_permitted_dag_ids_no_relevant_method (m : AuthManager)
    (dag_ids : Finset String) (user : Option BaseUser) (l : List ResourceMethod)
    (hne : l ≠ []) (hG : ResourceMethod.GET ∉ l) (hP : ResourceMethod.PUT ∉ l) :
    filter_permitted_dag_ids m dag_ids (some l) user = ∅ := by
  have hms : effective_methods (some l) = l := by
    simp [effective_methods, hne]
  have hc : ¬ ((ResourceMethod.GET ∈ effective_methods (some l)
        ∧ m.is_authorized_dag ResourceMethod.GET none none user = true)
      ∨ (ResourceMethod.PUT ∈ effective_methods (some l)
        ∧ m.is_authorized_dag ResourceMethod.PUT none none user = true)) := by
    rw [hms]
    rintro (⟨hmem, _⟩ | ⟨hmem, _⟩)
    · exact hG hmem
    · exact hP hmem
  unfold filter_permitted_dag_ids
  rw [if_neg hc, hms]
  refine Finset.filter_false_of_mem ?_
  intro x _
  simp [_is_permitted_dag_id, hG, hP]

/-- Claim C10 witness: even an allow-everything backend gets the empty set for
methods = [POST]. -/
theorem filter_permitted_dag_ids_no_relevant_method_witness :
    filter_permitted_dag_ids mgrAllowAll {"a"} (some [ResourceMethod.POST]) none = ∅ :=
  filter_permitted_dag_ids_no_relevant_method mgrAllowAll {"a"} none
    [ResourceMethod.POST] (by decide) (by decide) (by decide)

/-- Claim C6: with no user in session, `get_user_name`, `get_user_display_name`
and `get_user_id` all fail with exactly the `Unauthenticated` error
("The user must be signed in.") and an error-level log entry is emitted; with a
user in session they all succeed. -/
theorem current_user_operations (m : AuthManager) :
    (m.get_user = none →
      (get_user_name m).1
          = Except.error (AuthError.unauthenticated "The user must be signed in.")
        ∧ (get_user_display_name m).1
          = Except.error (AuthError.unauthenticated "The user must be signed in.")
        ∧ (get_user_id m).1
          = Except.error (AuthError.unauthenticated "The user must be signed in.")
        ∧ (LogLevel.error, "Calling get_user_name() but the user is not signed in.")
            ∈ (get_user_name m).2
        ∧ (LogLevel.error, "Calling get_user_id() but the user is not signed in.")
            ∈ (get_user_id m).2)
    ∧ ∀ u, m.get_user = some u →
        (get_user_name m).1 = Except.ok u.get_name
        ∧ (get_user_display_name m).1 = Except.ok u.get_name
        ∧ (get_user_id m).1 = Except.ok (coerce_user_id u.get_id) := by
  constructor
  · intro h
    simp [get_user_name, get_user_display_name, get_user_id, h]
  · intro u h
    simp [get_user_name, get_user_display_name, get_user_id, h]

/-- Claim C6 witness: a signed-out session fails with `Unauthenticated`, a
signed-in one succeeds. -/
theorem current_user_operations_witness :
    (get_user_name mgrOnlyA).1
        = Except.error (AuthError.unauthenticated "The user must be signed in.")
    ∧ (get_user_name mgrAlice).1 = Except.ok "alice" :=
  ⟨((current_user_operations mgrOnlyA).1 rfl).1,
   ((current_user_operations mgrAlice).2 userAlice rfl).1⟩

/-- Claim C7: when the external dag-id enumeration fails, `get_permitted_dag_ids`
propagates the error unchanged and performs no filtering; filtering happens only
on a successful enumeration. -/
theorem get_permitted_dag_ids_propagates (m : AuthManager)
    (store : Except AuthError (List String)) (methods : Option (List ResourceMethod))
    (user : Option BaseUser) :
    (∀ e, store = Except.error e →
      get_permitted_dag_ids m store methods user = Except.error e)
    ∧ ∀ dag_list, store = Except.ok dag_list →
        get_permitted_dag_ids m store methods user
          = Except.ok (filter_permitted_dag_ids m dag_list.toFinset methods user) := by
  constructor <;> intro x h <;> subst h <;> rfl

/-- Claim C7 witness: a failing enumeration surfaces the same `Dependency` error. -/
theorem get_permitted_dag_ids_propagates_witness :
    get_permitted_dag_ids mgrAllowAll
        (Except.error (AuthError.dependency "enumeration failed")) none none
      = Except.error (AuthError.dependency "enumeration failed") :=
  (get_permitted_dag_ids_propagates mgrAllowAll
      (Except.error (AuthError.dependency "enumeration failed")) none none).1 _ rfl

/-- Claim C8: within the expiration window, verifying the token issued by
`get_jwt_token` yields the serialized claims, and (given that the backend
serializer pair round-trips) deserializing them yields an identity with the same
id and display name as the input user. -/
theorem jwt_token_round_trip (m : AuthManager) (cfg : Config) (now t : Nat)
    (user : BaseUser)
    (h_inv : (m.deserialize_user (m.serialize_user user)).get_id = user.get_id
      ∧ (m.deserialize_user (m.serialize_user user)).get_name = user.get_name)
    (h_window : t < now + cfg.auth_jwt_expiration_time) :
    verify_signed_token cfg.auth_jwt_secret "front-apis" t (get_jwt_token m cfg now user)
        = some (m.serialize_user user)
    ∧ (m.deserialize_user (m.serialize_user user)).get_id = user.get_id
    ∧ (m.deserialize_user (m.serialize_user user)).get_name = user.get_name := by
  refine ⟨?_, h_inv.1, h_inv.2⟩
  unfold verify_signed_token get_jwt_token generate_signed_token
  rw [if_pos ⟨rfl, rfl, h_window⟩]

/-- Claim C8 witness: a concrete token issued at time 100 with a 10-second
lifetime verifies at time 105 and round-trips the identity. -/
theorem jwt_token_round_trip_witness :
    105 < 100 + 10
    ∧ verify_signed_token "jwt-secret" "front-apis" 105
          (get_jwt_token mgrJwt ⟨"jwt-secret", 10⟩ 100 userAlice)
        = some [("sub", "alice")]
    ∧ (mgrJwt.deserialize_user (mgrJwt.serialize_user userAlice)).get_id = userAlice.get_id
    ∧ (mgrJwt.deserialize_user (mgrJwt.serialize_user userAlice)).get_name
        = userAlice.get_name :=
  ⟨by decide,
   jwt_token_round_trip mgrJwt ⟨"jwt-secret", 10⟩ 100 105 userAlice ⟨rfl, rfl⟩ (by decide)⟩

/-- Claim C5 counterexample: against a backend whose decision depends only on the
user argument, a batch whose single element carries an identity override that
the single-item check accepts is still rejected by the default
`batch_is_authorized_connection` — the override is not forwarded. -/
theorem batch_override_cex :
    mgrUserSensitive.is_authorized_connection overrideConnRequest.method
        overrideConnRequest.details overrideConnRequest.user = true
    ∧ batch_is_authorized_connection mgrUserSensitive [overrideConnRequest] = false := by
  decide

/-- Claim C5 amended: the default `batch_is_authorized_<kind>` implementations
evaluate each element with its own method, details and (for Dag) access entity,
but ignore any per-element identity override and check as the ambient current
user — rewriting the user field of every element never changes the result. -/
theorem batch_is_authorized_ignores_user_override (m : AuthManager)
    (creqs : List IsAuthorizedConnectionRequest) (dreqs : List IsAuthorizedDagRequest)
    (preqs : List IsAuthorizedPoolRequest) (vreqs : List IsAuthorizedVariableRequest)
    (fc : IsAuthorizedConnectionRequest → Option BaseUser)
    (fd : IsAuthorizedDagRequest → Option BaseUser)
    (fp : IsAuthorizedPoolRequest → Option BaseUser)
    (fv : IsAuthorizedVariableRequest → Option BaseUser) :
    batch_is_authorized_connection m (creqs.map fun r => ⟨r.method, r.details, fc r⟩)
      = batch_is_authorized_connection m creqs
    ∧ batch_is_authorized_dag m
        (dreqs.map fun r => ⟨r.method, r.access_entity, r.details, fd r⟩)
      = batch_is_authorized_dag m dreqs
    ∧ batch_is_authorized_pool m (preqs.map fun r => ⟨r.method, r.details, fp r⟩)
      = batch_is_authorized_pool m preqs
    ∧ batch_is_authorized_variable m (vreqs.map fun r => ⟨r.method, r.details, fv r⟩)
      = batch_is_authorized_variable m vreqs := by
  refine ⟨?_, ?_, ?_, ?_⟩ <;>
  · simp only [batch_is_authorized_connection, batch_is_authorized_dag,
      batch_is_authorized_pool, batch_is_authorized_variable, List.all_map]
    rfl

end Airflow
